import Mathlib

/-!
Verification development for the robo-comp DXF export orchestration core.

The Python sources (dxf_auto/core/dxf_exporter.py, dxf_auto/core/assembly_scanner.py,
dxf_auto/models/sheet_part.py, dxf_auto/core/kompas_api.py) are shallowly embedded:
pure data classes become structures, the host CAD automation surface (an external
COM collaborator) is modelled by explicit oracles describing the outcome of each
host call, and the mutable state the orchestrator touches (the sheet-metal body's
straightened flag and the output file system) is threaded explicitly.

Floating-point quantities (thickness, mass) are modelled as rationals; wall-clock
timestamps, logging and progress-observer callbacks carry no verified content and
are omitted (the progress/cancellation protocol itself is modelled).
-/

namespace RoboComp

/-- models/sheet_part.py SheetPartInfo (dataclass). Fields irrelevant to the
verified claims (unfold dimensions, area, custom properties) are omitted. -/
structure SheetPartInfo where
  id : String := ""
  designation : String := ""
  marking : String := ""
  name : String := ""
  file_path : String := ""
  file_name : String := ""
  material : String := ""
  thickness : ℚ := 0
  quantity : Nat := 1
  parent_id : String := ""
  level : Nat := 0
  mass : ℚ := 0
  export_selected : Bool := true
  export_path : String := ""
  export_status : String := ""
deriving DecidableEq

/-- dxf_exporter.py ExportResult (timestamps and warning list omitted). -/
structure ExportResult where
  part_info : SheetPartInfo
  success : Bool := false
  output_path : String := ""
  error_message : String := ""
deriving DecidableEq

/-- dxf_exporter.py ExportSummary (timestamps omitted). -/
structure ExportSummary where
  results : List ExportResult := []
deriving DecidableEq

/-- ExportSummary.total_count: len(self.results). -/
def ExportSummary.total_count (s : ExportSummary) : Nat := s.results.length

/-- ExportSummary.success_count: sum(1 for r in results if r.success). -/
def ExportSummary.success_count (s : ExportSummary) : Nat :=
  s.results.countP (fun r => r.success)

/-- ExportSummary.failure_count: sum(1 for r in results if not r.success). -/
def ExportSummary.failure_count (s : ExportSummary) : Nat :=
  s.results.countP (fun r => !r.success)

/-- ExportSummary.success_rate: 0.0 when total_count == 0, else
(success_count / total_count) * 100; Python float division modelled in ℚ. -/
def ExportSummary.success_rate (s : ExportSummary) : ℚ :=
  if s.total_count = 0 then 0
  else ((s.success_count : ℚ) / (s.total_count : ℚ)) * 100

/-- Python substring test `needle in hay` on strings (contiguous substring). -/
def strContainsSub (hay needle : String) : Bool :=
  decide (needle.data <:+: hay.data)

/-- assembly_scanner.py filter_sheet_parts. `include_hidden` and
`include_standard` are parameters of the source function; the Python
`float('inf')` default for max_thickness is supplied by callers here.
Python str.lower() is modelled by String.toLower. -/
def filter_sheet_parts (parts : List SheetPartInfo)
    (include_hidden include_standard : Bool)
    (min_thickness max_thickness : ℚ) (material_filter : String) :
    List SheetPartInfo :=
  match parts with
  | [] => []
  | part :: rest =>
    let tail := filter_sheet_parts rest include_hidden include_standard
        min_thickness max_thickness material_filter
    -- Skip based on selection
    if !part.export_selected then tail
    -- Thickness filter
    else if part.thickness < min_thickness ∨ max_thickness < part.thickness then tail
    -- Material filter
    else if material_filter ≠ "" ∧
        !strContainsSub part.material.toLower material_filter.toLower then tail
    else part :: tail

/-- The filter as the claim words it: exactly the selected parts whose thickness
lies within the band and whose material matches, in input order, with the
include_hidden / include_standard arguments never consulted. -/
def filterSheetPartsSpec (parts : List SheetPartInfo)
    (min_thickness max_thickness : ℚ) (material_filter : String) :
    List SheetPartInfo :=
  parts.filter (fun p =>
    p.export_selected &&
    decide (min_thickness ≤ p.thickness) && decide (p.thickness ≤ max_thickness) &&
    (material_filter == "" || strContainsSub p.material.toLower material_filter.toLower))

/-- Non-recursive attributes of models/sheet_part.py AssemblyNode. -/
structure NodeData where
  id : String := ""
  name : String := ""
  designation : String := ""
  file_path : String := ""
  is_assembly : Bool := false
  is_sheet_metal : Bool := false
  is_standard : Bool := false
  parent_id : String := ""
  level : Nat := 0
  quantity : Nat := 1
  sheet_part : Option SheetPartInfo := none
deriving DecidableEq

/-- models/sheet_part.py AssemblyNode: data plus ordered owned children. -/
inductive AssemblyNode : Type where
  | mk (data : NodeData) (children : List AssemblyNode)

def AssemblyNode.data : AssemblyNode → NodeData
  | .mk d _ => d

def AssemblyNode.children : AssemblyNode → List AssemblyNode
  | .mk _ cs => cs

/-- AssemblyNode.add_child: sets child.parent_id = self.id and
child.level = self.level + 1, then appends it to self.children. -/
def AssemblyNode.add_child : AssemblyNode → AssemblyNode → AssemblyNode
  | .mk d cs, .mk cd ccs =>
      .mk d (cs ++ [.mk { cd with parent_id := d.id, level := d.level + 1 } ccs])

mutual

/-- AssemblyNode.get_all_sheet_parts: own record when flagged sheet-metal AND
carrying a SheetPartInfo (the Python guard is `self.is_sheet_metal and
self.sheet_part`), followed by the children's records in order. -/
def AssemblyNode.get_all_sheet_parts : AssemblyNode → List SheetPartInfo
  | .mk d cs =>
    (match d.is_sheet_metal, d.sheet_part with
     | true, some sp => [sp]
     | _, _ => []) ++ getAllSheetPartsList cs

def getAllSheetPartsList : List AssemblyNode → List SheetPartInfo
  | [] => []
  | c :: cs => c.get_all_sheet_parts ++ getAllSheetPartsList cs

end

mutual

/-- AssemblyNode.flatten: the node itself followed by flattened children
(pre-order / encounter order). -/
def AssemblyNode.flatten : AssemblyNode → List AssemblyNode
  | .mk d cs => .mk d cs :: flattenList cs

def flattenList : List AssemblyNode → List AssemblyNode
  | [] => []
  | c :: cs => c.flatten ++ flattenList cs

end

mutual

/-- Node identifiers of a tree in pre-order. -/
def nodeIds : AssemblyNode → List String
  | .mk d cs => d.id :: nodeIdsList cs

def nodeIdsList : List AssemblyNode → List String
  | [] => []
  | c :: cs => nodeIds c ++ nodeIdsList cs

end

mutual

/-- The data-model level invariant: every child's level is its parent's
level + 1, recursively. -/
def levelsOk : AssemblyNode → Bool
  | .mk d cs => levelsOkList (d.level + 1) cs

def levelsOkList : Nat → List AssemblyNode → Bool
  | _, [] => true
  | l, c :: cs => (c.data.level == l) && levelsOk c && levelsOkList l cs

end

/-- The host part hierarchy as observed through the kompas_api.py wrappers
(Part3D and SheetMetalContainer). Every wrapper accessor swallows COM errors
and substitutes a default, so each field here is simply the value the wrapper
call yields for this part. `containerFound` is whether
Part3D.get_sheet_metal_container returns a container (one of its three query
methods reported a positive body count); `has_sheet_metal` is the container's
separate has_sheet_metal re-query; `bodies` is the list of body thicknesses
sheet_metal_bodies manages to retrieve (its per-index retrieval can fail, so
it may be empty even when has_sheet_metal is true). -/
structure HostPartData where
  name : String := ""
  marking : String := ""
  file_name : String := ""
  material : String := ""
  is_detail : Bool := true
  is_standard : Bool := false
  instance_count : Nat := 1
  mass : ℚ := 0
  containerFound : Bool := false
  has_sheet_metal : Bool := false
  bodies : List ℚ := []
deriving DecidableEq

/-- A host component with its child components (Part3D.parts). -/
inductive HostPart : Type where
  | mk (data : HostPartData) (children : List HostPart)

def HostPart.data : HostPart → HostPartData
  | .mk d _ => d

def HostPart.children : HostPart → List HostPart
  | .mk _ cs => cs

mutual

/-- AssemblyScanner._count_parts: 1 for the part plus the counts of children. -/
def _count_parts : HostPart → Nat
  | .mk _ cs => 1 + _count_parts_list cs

def _count_parts_list : List HostPart → Nat
  | [] => 0
  | p :: ps => _count_parts p + _count_parts_list ps

end

/-- AssemblyScanner._create_sheet_part_info, from a part and the first body.
Path(file_path).stem is a pathlib call, passed in as `stem`. The dataclass
__post_init__ id is immediately overwritten by the scanner with the node id,
so the id is set by the caller. -/
def _create_sheet_part_info (stem : String → String) (d : HostPartData)
    (bodyThickness : ℚ) (level : Nat) (parent_id : String) : SheetPartInfo :=
  { designation := d.marking
    name := d.name
    file_path := d.file_name
    file_name := if d.file_name = "" then "" else stem d.file_name
    material := d.material
    thickness := bodyThickness
    quantity := d.instance_count
    parent_id := parent_id
    level := level
    mass := d.mass }

/-- Fold a list of built child nodes into a parent via add_child, as the
scanner's `for child_part in part.parts: ... node.add_child(child_node)`. -/
def addChildren (n : AssemblyNode) (cs : List AssemblyNode) : AssemblyNode :=
  cs.foldl AssemblyNode.add_child n

mutual

/-- AssemblyScanner._scan_part_recursive. `idSupply` models the external
id generator `str(uuid.uuid4())[:8]`: the scan draws one value per visited
node, in visit order, with no uniqueness enforcement in the code; `counter`
is the number of ids drawn so far. Returns the built node and the new
counter. Progress reporting is observer-only and not modelled. -/
def _scan_part_recursive (idSupply : Nat → String) (stem : String → String) :
    HostPart → Nat → Nat → String → AssemblyNode × Nat
  | .mk d children, counter, level, parent_id =>
    let node_id := idSupply counter
    -- sheet metal detection: container found and container.has_sheet_metal
    let is_sheet_metal := d.containerFound && d.has_sheet_metal
    -- SheetPartInfo built only when the body list is non-empty; its id is
    -- then overwritten with the node id
    let sheet_part : Option SheetPartInfo :=
      if is_sheet_metal then
        match d.bodies with
        | [] => none
        | t :: _ =>
          some { _create_sheet_part_info stem d t level parent_id with id := node_id }
      else none
    let nd : NodeData :=
      { id := node_id
        name := d.name
        designation := d.marking
        file_path := d.file_name
        is_assembly := !d.is_detail
        is_sheet_metal := is_sheet_metal
        is_standard := d.is_standard
        parent_id := parent_id
        level := level
        quantity := d.instance_count
        sheet_part := sheet_part }
    let scanned := _scan_children idSupply stem children (counter + 1) (level + 1) node_id
    (addChildren (.mk nd []) scanned.1, scanned.2)

def _scan_children (idSupply : Nat → String) (stem : String → String) :
    List HostPart → Nat → Nat → String → List AssemblyNode × Nat
  | [], c, _, _ => ([], c)
  | p :: ps, c, lvl, pid =>
    let first := _scan_part_recursive idSupply stem p c lvl pid
    let rest := _scan_children idSupply stem ps first.2 lvl pid
    (first.1 :: rest.1, rest.2)

end

/-!  The export orchestrator (dxf_exporter.py).  The host file system is
modelled as an association list from path to file size in bytes; directories
(mkdir calls) carry no verified content and are not tracked. -/

/-- Output-directory file system: path ↦ size in bytes. -/
abbrev FS := List (String × Nat)

def fsLookup (fs : FS) (p : String) : Option Nat :=
  match fs with
  | [] => none
  | (q, n) :: rest => if q = p then some n else fsLookup rest p

def fsErase (fs : FS) (p : String) : FS :=
  match fs with
  | [] => []
  | (q, n) :: rest => if q = p then fsErase rest p else (q, n) :: fsErase rest p

def fsWrite (fs : FS) (p : String) (n : Nat) : FS :=
  (p, n) :: fsErase fs p

/-- kompas_api.py DocumentType (DocumentTypeEnum). -/
inductive DocumentType : Type where
  | unknown | drawing | fragment | specification | part | assembly | text | techAssembly
deriving DecidableEq

/-- KompasDocument.is_3d: type in (PART, ASSEMBLY). -/
def DocumentType.is_3d : DocumentType → Bool
  | .part => true | .assembly => true | _ => false

/-- KompasDocument.is_2d: type in (DRAWING, FRAGMENT). -/
def DocumentType.is_2d : DocumentType → Bool
  | .drawing => true | .fragment => true | _ => false

/-- Outcomes of the host calls made inside _export_to_dxf and its strategy
helpers.  An `Except` value records whether the call raised (the strategies
catch such raises themselves).  A `... Writes : Option Nat` field is the size
of the file the host actually produces at the output path when the
corresponding save/convert call runs (`none`: the host produced nothing —
the unreliable-return-code case the content sanity check exists for). -/
structure ConvOracle where
  -- Method 1 (2D documents): doc.save_as(output_path)
  saveAs2dOk : Bool := false
  saveAs2dWrites : Option Nat := none
  -- Method 2: _export_via_converter
  converterAvailable : Bool := false
  saveTempOk2 : Bool := false
  tempSize2 : Nat := 0
  convertReturns : Except String Bool := .ok false
  convertWrites : Option Nat := none
  -- Method 3: _export_via_drawing_view
  saveTempOk3 : Bool := false
  tempSize3 : Nat := 0
  drawingCreated : Bool := false
  vlmOk : Bool := false
  viewsOk : Bool := false
  assocViewOk : Bool := false
  viewConfigRaises : Bool := false
  drawingSaveOk : Bool := false
  drawingWrites : Option Nat := none
  -- Method 4: _export_via_2d_fragment (the interactive command and its
  -- background auto-confirm nudges touch no modelled state)
  fragmentCreated : Bool := false
  cmdAvailable : Bool := false
  execPostOk : Bool := false
  execSyncOk : Bool := false
  fragSaveOk : Bool := false
  fragWrites : Option Nat := none

/-- DXFExporter._export_via_converter: save the straightened model to a temp
file, run IConverter on it, validate output existence and size > 500, delete
the temp file on every exit path (finally). -/
def _export_via_converter (o : ConvOracle) (output_path temp_file : String)
    (fs : FS) : Bool × FS :=
  -- converter = self._api.get_converter(); None → return False (no temp yet)
  if !o.converterAvailable then (false, fs)
  -- doc.save_as(temp_file) failed → return False (temp not produced)
  else if !o.saveTempOk2 then (false, fs)
  else
    let fs1 := fsWrite fs temp_file o.tempSize2
    -- converter.Convert(temp, output, 0, False): the host may write the
    -- output file (or not) and then return, or raise
    let fs2 := match o.convertWrites with
      | some n => fsWrite fs1 output_path n
      | none => fs1
    let r : Bool :=
      match o.convertReturns with
      | .error _ => false            -- except conv_error → return False
      | .ok false => false           -- Convert returned False
      | .ok true =>
        match fsLookup fs2 output_path with
        | none => false              -- returned True but file does not exist
        | some n => decide (500 < n) -- minimum size for valid DXF
    -- finally: clean up temporary file
    (r, fsErase fs2 temp_file)

/-- DXFExporter._export_via_drawing_view: save temp model, create a Drawing,
attach an associative view, save the drawing as DXF, validate size > 500;
drawing closed and temp file deleted on every exit path (finally). -/
def _export_via_drawing_view (o : ConvOracle) (output_path temp_file : String)
    (fs : FS) : Bool × FS :=
  -- doc.save_as(temp_file) failed → return False (temp not produced)
  if !o.saveTempOk3 then (false, fs)
  else
    let fs1 := fsWrite fs temp_file o.tempSize3
    if !o.drawingCreated then (false, fsErase fs1 temp_file)
    else if !o.vlmOk then (false, fsErase fs1 temp_file)
    else if !o.viewsOk then (false, fsErase fs1 temp_file)
    else if !o.assocViewOk then (false, fsErase fs1 temp_file)
    -- configuring the view raised (AttributeError / Exception) → False
    else if o.viewConfigRaises then (false, fsErase fs1 temp_file)
    else
      -- drawing.save_as(output_path): host may write the DXF, returns a Bool
      let fs2 := match o.drawingWrites with
        | some n => fsWrite fs1 output_path n
        | none => fs1
      let r : Bool :=
        if o.drawingSaveOk then
          match fsLookup fs2 output_path with
          | none => false            -- fell through to final return False
          | some n => decide (500 < n)
        else false
      (r, fsErase fs2 temp_file)

/-- DXFExporter._export_via_2d_fragment: activate the 3D source, create a 2D
fragment, issue the interactive CreateSheetFromModel command while a
background helper fires best-effort accept signals (no modelled state), then
save the fragment as DXF and validate size > 500; the fragment is closed
without saving on every exit path (finally). -/
def _export_via_2d_fragment (o : ConvOracle) (output_path : String)
    (fs : FS) : Bool × FS :=
  if !o.fragmentCreated then (false, fs)
  else
    -- is_command_available / execute_command results are logged only; the
    -- auto-confirm thread issues stop_current_process nudges with no
    -- modelled effect
    let _ := o.cmdAvailable
    let _ := o.execPostOk
    let _ := o.execSyncOk
    -- fragment.save_as(output_path)
    let fs2 := match o.fragWrites with
      | some n => fsWrite fs output_path n
      | none => fs
    let r : Bool :=
      if o.fragSaveOk then
        match fsLookup fs2 output_path with
        | none => false
        | some n => decide (500 < n)
      else false
    (r, fs2)

/-- Which fallback strategies a run of _export_to_dxf attempted. -/
structure ConvTrace where
  tried2 : Bool := false
  tried3 : Bool := false
  tried4 : Bool := false
deriving DecidableEq

/-- DXFExporter._export_to_dxf: 2D documents are saved directly (Method 1);
3D documents go through the ordered fallback chain (Methods 2, 3, 4),
stopping at the first strategy that returns true. -/
def _export_to_dxf (is2d : Bool) (o : ConvOracle) (output_path temp_file : String)
    (fs : FS) : Bool × FS × ConvTrace :=
  if is2d then
    -- Method 1: return doc.save_as(output_path) directly, no sanity check
    let fs1 := match o.saveAs2dWrites with
      | some n => fsWrite fs output_path n
      | none => fs
    (o.saveAs2dOk, fs1, {})
  else
    let m2 := _export_via_converter o output_path temp_file fs
    if m2.1 then (true, m2.2, { tried2 := true })
    else
      let m3 := _export_via_drawing_view o output_path temp_file m2.2
      if m3.1 then (true, m3.2, { tried2 := true, tried3 := true })
      else
        let m4 := _export_via_2d_fragment o output_path m3.2
        (m4.1, m4.2, { tried2 := true, tried3 := true, tried4 := true })

/-- models/export_settings.py ExportSettings, subset read by the exporter. -/
structure ExportSettings where
  overwrite_existing : Bool := false
  straighten_before_export : Bool := true
deriving DecidableEq

/-- Outcomes of the host calls one part's export makes.  The sheet-metal
body operations straighten() / fold() and the document operations activate()
/ rebuild() are absent from the src wrappers (SheetMetalBody and
KompasDocument); they are modelled from the spec's Document Capability
Provider interface: straighten()→bool, fold()→bool, activate(), plus a
rebuild whose failure is non-fatal.  `straightenCall` may raise, covering an
injected failing stub; `straightenEffect` is the host flag value after the
straighten request acts (the return value and the actual flag are observed
independently, which is why the code re-reads the flag to verify). -/
structure PartOracle where
  sourceFileExists : Bool := false
  openOk : Bool := false
  docType : DocumentType := .part
  topPartOk : Bool := false
  containerOk : Bool := false        -- container found and has_sheet_metal
  bodiesNonempty : Bool := false
  body0 : Bool := false              -- snapshotted is_straightened
  straightenEffect : Bool := false
  straightenCall : Except String Bool := .ok false
  setterOk : Bool := false           -- direct is_straightened = True effect
  rebuildOk : Bool := false
  conv : ConvOracle := {}
  restoreStraightenOk : Bool := false -- restore-time straighten() returns true
  restoreFoldOk : Bool := false       -- restore-time fold() returns true

/-- Observable events of one part's export. -/
structure PartTrace where
  openRequested : Bool := false       -- documents.open was invoked
  snapshotTaken : Bool := false       -- reached step 4: original state read
  convAttempted : Bool := false       -- _export_to_dxf invoked
  straightenRestoreRequested : Bool := false
  foldRequested : Bool := false
  raisedMsg : Option String := none   -- exception caught at the part handler
  finalStraightened : Bool := false   -- body flag at exit (once snapshotTaken)
deriving DecidableEq

/-- The mutate-and-convert section of _export_single_part (the inner
`try:` at the straighten/convert steps): returns an early exception (.error)
or the finalized result, plus the body flag, the file system, and whether
conversion ran. -/
def mutateConvert (settings : ExportSettings) (o : PartOracle)
    (result0 : ExportResult) (output_path temp_file : String) (fs : FS) :
    Except String ExportResult × Bool × FS × Bool :=
  let original := o.body0
  let convertPhase := fun (flag : Bool) =>
    let c := _export_to_dxf o.docType.is_2d o.conv output_path temp_file fs
    if c.1 then (.ok { result0 with success := true }, flag, c.2.1, true)
    else (.ok { result0 with error_message := "Ошибка конвертации в DXF" }, flag, c.2.1, true)
  if settings.straighten_before_export && !original then
    -- body.straighten(): the host may act on the flag and return, or raise
    let flagA := o.straightenEffect
    match o.straightenCall with
    | .error m => (.error m, flagA, fs, false)
    | .ok b =>
      -- returned False → direct property set fallback
      let flagB := if !b then (if o.setterOk then true else flagA) else flagA
      -- verify the change actually happened
      if !flagB then
        (.ok { result0 with error_message := "Не удалось развернуть листовое тело" },
         flagB, fs, false)
      else
        -- doc.rebuild(): failure logged, non-fatal
        let _ := o.rebuildOk
        convertPhase flagB
  else
    convertPhase original

/-- Steps 4–7 of _export_single_part, entered once the body has been located:
snapshot the straightened state, run the mutate/convert section, then the
guaranteed-execution restore (the `finally:` at the straighten level) and the
part-level exception handler. -/
def exportCore (settings : ExportSettings) (o : PartOracle)
    (part_info : SheetPartInfo) (output_path temp_file : String) (fs : FS) :
    ExportResult × FS × PartTrace :=
  let result0 : ExportResult := { part_info := part_info, output_path := output_path }
  -- step 4 snapshot: original_straightened = body.is_straightened
  let original := o.body0
  let mc := mutateConvert settings o result0 output_path temp_file fs
  let flag1 := mc.2.1
  let fs1 := mc.2.2.1
  let conv := mc.2.2.2
  -- finally: restore original state if we changed it
  let restored :=
    if flag1 != original then
      if original then
        ((if o.restoreStraightenOk then true else flag1), true, false)
      else
        ((if o.restoreFoldOk then false else flag1), false, true)
    else (flag1, false, false)
  let trF : PartTrace :=
    { openRequested := true, snapshotTaken := true, convAttempted := conv,
      straightenRestoreRequested := restored.2.1,
      foldRequested := restored.2.2,
      finalStraightened := restored.1 }
  -- except: any raise becomes the result's error message
  match mc.1 with
  | .error m =>
    ({ result0 with error_message := m }, fs1, { trF with raisedMsg := some m })
  | .ok r => (r, fs1, trF)

/-- DXFExporter._export_single_part.  `output_path` is the path resolved by
_generate_output_path via the settings' filename-generation collaborator;
`temp_file` the private temp path the strategies use.  Returns the finalized
result, the file system, and the run's trace. -/
def _export_single_part (settings : ExportSettings) (o : PartOracle)
    (part_info : SheetPartInfo) (output_path temp_file : String) (fs : FS) :
    ExportResult × FS × PartTrace :=
  let result0 : ExportResult := { part_info := part_info, output_path := output_path }
  -- skip-fast: if output_path.exists() and not overwrite_existing
  if (fsLookup fs output_path).isSome && !settings.overwrite_existing then
    ({ result0 with error_message := "Файл уже существует" }, fs, {})
  else
    -- _open_part_document: empty path or missing source file → None without
    -- calling documents.open; otherwise open may still fail
    if part_info.file_path = "" then
      ({ result0 with error_message := "Не удалось открыть документ детали" }, fs, {})
    else if !o.sourceFileExists then
      ({ result0 with error_message := "Не удалось открыть документ детали" }, fs, {})
    else if !o.openOk then
      ({ result0 with error_message := "Не удалось открыть документ детали" }, fs,
       { openRequested := true })
    else
      -- document opened; from here the finally closes it (close failures
      -- are swallowed and the close has no modelled effect)
      let tr1 : PartTrace := { openRequested := true }
      -- doc.activate(): modelled from the spec, no modelled state change
      if !o.docType.is_3d then
        ({ result0 with error_message := "Не удалось получить 3D документ" }, fs, tr1)
      else if !o.topPartOk then
        ({ result0 with error_message := "Не удалось получить компонент" }, fs, tr1)
      else if !o.containerOk then
        ({ result0 with error_message := "Деталь не является листовой" }, fs, tr1)
      else if !o.bodiesNonempty then
        ({ result0 with error_message := "Листовое тело не найдено" }, fs, tr1)
      else
        exportCore settings o part_info output_path temp_file fs

/-- The per-part loop of DXFExporter.export_parts over the already-filtered
list.  `idx` is the running enumerate index; `cancelled` the cooperative
flag, polled only at the top of each iteration; `cancelDuring i` is whether
the external caller requests cancellation while item i is being processed.
After a part finishes, its export_path / export_status are written back onto
the (shared) part record the result references. -/
def exportLoop (settings : ExportSettings) (genPath : SheetPartInfo → Nat → String)
    (temp_file : String) (oracles : Nat → PartOracle) (cancelDuring : Nat → Bool) :
    List SheetPartInfo → Nat → Bool → FS → ExportSummary × FS × List PartTrace
  | [], _, _, fs => ({}, fs, [])
  | p :: ps, idx, cancelled, fs =>
    if cancelled then ({}, fs, [])
    else
      let one := _export_single_part settings (oracles idx) p (genPath p idx) temp_file fs
      let r := one.1
      -- part_info.export_path / export_status mutation is visible through
      -- the result, which references the same record
      let p1 := { p with export_path := r.output_path,
                         export_status := if r.success then "OK" else r.error_message }
      let r1 := { r with part_info := p1 }
      let rest := exportLoop settings genPath temp_file oracles cancelDuring ps
        (idx + 1) (cancelled || cancelDuring idx) one.2.1
      ({ results := r1 :: rest.1.results }, rest.2.1, one.2.2 :: rest.2.2)

/-- DXFExporter.export_parts: clears the cancellation flag, filters the input
to export_selected, ensures the output directory (directory creation is not
tracked), then processes the selected parts strictly sequentially. -/
def export_parts (settings : ExportSettings) (genPath : SheetPartInfo → Nat → String)
    (temp_file : String) (oracles : Nat → PartOracle) (cancelDuring : Nat → Bool)
    (parts : List SheetPartInfo) (fs : FS) : ExportSummary × FS × List PartTrace :=
  let selected := parts.filter (fun p => p.export_selected)
  exportLoop settings genPath temp_file oracles cancelDuring selected 0 false fs

/-- The record a node contributes to get_all_sheet_parts: its embedded
SheetPartInfo when flagged sheet-metal, else nothing. -/
def pickSheet (n : AssemblyNode) : Option SheetPartInfo :=
  if n.data.is_sheet_metal then n.data.sheet_part else none

/-- The field overwrite add_child performs on the child being attached. -/
def reparent (d : NodeData) : AssemblyNode → AssemblyNode
  | .mk cd ccs => .mk { cd with parent_id := d.id, level := d.level + 1 } ccs

/-! Helper lemmas. -/

theorem fsLookup_fsErase_ne (fs : FS) (p q : String) (h : p ≠ q) :
    fsLookup (fsErase fs p) q = fsLookup fs q := by
  induction fs with
  | nil => rfl
  | cons e rest ih =>
    obtain ⟨r, n⟩ := e
    by_cases hr : r = p
    · subst hr
      simp [fsErase, fsLookup, ih, h]
    · by_cases hq : r = q
      · simp [fsErase, fsLookup, hr, hq, Ne.symm h]
      · simp [fsErase, fsLookup, hr, hq, ih]

theorem fsLookup_fsWrite_self (fs : FS) (p : String) (n : Nat) :
    fsLookup (fsWrite fs p n) p = some n := by
  simp [fsWrite, fsLookup]

/-! C8: success_rate of an empty summary. -/

/-- C8: with total_count = 0, success_rate returns 0 (no division fault);
otherwise it is success_count / total_count as a percentage (float arithmetic
modelled in ℚ). -/
theorem c8_success_rate (s : ExportSummary) :
    (s.total_count = 0 → s.success_rate = 0) ∧
    (s.total_count ≠ 0 →
      s.success_rate = ((s.success_count : ℚ) / (s.total_count : ℚ)) * 100) := by
  constructor
  · intro h
    simp [ExportSummary.success_rate, h]
  · intro h
    simp [ExportSummary.success_rate, h]

/-- Witness for C8 at concrete summaries. -/
theorem c8_success_rate_witness :
    (({} : ExportSummary).total_count = 0 ∧ ({} : ExportSummary).success_rate = 0) ∧
    (({ results := [{ part_info := {}, success := true }] } : ExportSummary).success_rate
      = 100) := by
  refine ⟨⟨rfl, (c8_success_rate {}).1 rfl⟩, ?_⟩
  rw [(c8_success_rate _).2 (by decide)]
  norm_num [show ExportSummary.success_count
      { results := [{ part_info := {}, success := true }] } = 1 from rfl,
    show ExportSummary.total_count
      { results := [{ part_info := {}, success := true }] } = 1 from rfl]

/-! C10: filter_sheet_parts ignores include_hidden / include_standard. -/

theorem ifChainStep {α : Type} (c1 : Bool) (c2 c3 : Prop)
    [Decidable c2] [Decidable c3] (x : α) (t : List α) :
    (if !c1 then t else if c2 then t else if c3 then t else x :: t)
    = if c1 = true ∧ ¬c2 ∧ ¬c3 then x :: t else t := by
  cases c1 <;> by_cases h2 : c2 <;> by_cases h3 : c3 <;> simp [h2, h3]

/-- C10: filter_sheet_parts never consults include_hidden or include_standard;
its output is exactly the selected parts whose thickness is within
[min_thickness, max_thickness] and whose (lower-cased) material contains the
filter substring when one is given, in input order. -/
theorem c10_filter_sheet_parts (parts : List SheetPartInfo)
    (include_hidden include_standard : Bool)
    (min_thickness max_thickness : ℚ) (material_filter : String) :
    filter_sheet_parts parts include_hidden include_standard
        min_thickness max_thickness material_filter
      = filterSheetPartsSpec parts min_thickness max_thickness material_filter := by
  induction parts with
  | nil => rfl
  | cons p rest IH =>
    show (if !p.export_selected then _ else _) = _
    rw [ifChainStep, IH]
    show _ = List.filter _ (p :: rest)
    rw [List.filter_cons]
    have : filterSheetPartsSpec rest min_thickness max_thickness material_filter
        = List.filter _ rest := rfl
    rw [← this]
    refine if_congr ?_ rfl rfl
    simp only [Bool.and_eq_true, decide_eq_true_eq, Bool.or_eq_true, beq_iff_eq,
      not_or, not_lt, not_and, Bool.not_eq_true, Bool.not_eq_false, ne_eq]
    constructor
    · rintro ⟨hsel, ⟨hlo, hhi⟩, hmat⟩
      refine ⟨⟨⟨hsel, hlo⟩, hhi⟩, ?_⟩
      by_cases hm : material_filter = ""
      · exact Or.inl hm
      · exact Or.inr (by simpa using hmat hm)
    · rintro ⟨⟨⟨hsel, hlo⟩, hhi⟩, hmat⟩
      refine ⟨hsel, ⟨hlo, hhi⟩, ?_⟩
      intro hm
      rcases hmat with h | h
      · exact absurd h hm
      · simpa using h

/-- Every run of _export_single_part either stops at one of the early guards
(skip-fast / open / locate), with no snapshot taken and no exception escaping
to the part handler, or runs the snapshot/mutate/restore core. -/
theorem exportSingle_early_or_core (settings : ExportSettings) (o : PartOracle)
    (part_info : SheetPartInfo) (output_path temp_file : String) (fs : FS) :
    _export_single_part settings o part_info output_path temp_file fs
      = exportCore settings o part_info output_path temp_file fs ∨
    ((_export_single_part settings o part_info output_path temp_file fs).2.2.snapshotTaken
        = false ∧
     (_export_single_part settings o part_info output_path temp_file fs).2.2.raisedMsg
        = none) := by
  unfold _export_single_part
  repeat' split
  all_goals first
    | (left; rfl)
    | (right; exact ⟨rfl, rfl⟩)

/-! C4: skip-fast on pre-existing output with overwrite disallowed. -/

/-- C4: when the resolved output path already exists and overwrite is
disallowed, the part finalizes with the already-exists error, the source
document is never opened (documents.open is not invoked), and the file
system — in particular the pre-existing target — is unchanged. -/
theorem c4_already_exists (settings : ExportSettings) (o : PartOracle)
    (part_info : SheetPartInfo) (output_path temp_file : String) (fs : FS)
    (hex : (fsLookup fs output_path).isSome = true)
    (hov : settings.overwrite_existing = false) :
    (_export_single_part settings o part_info output_path temp_file fs).1.success = false ∧
    (_export_single_part settings o part_info output_path temp_file fs).1.error_message
      = "Файл уже существует" ∧
    (_export_single_part settings o part_info output_path temp_file fs).2.2.openRequested
      = false ∧
    (_export_single_part settings o part_info output_path temp_file fs).2.1 = fs := by
  unfold _export_single_part
  rw [if_pos]
  · exact ⟨rfl, rfl, rfl, rfl⟩
  · rw [hex, hov]
    rfl

/-- Witness for C4: a concrete pre-existing 700-byte target. -/
theorem c4_already_exists_witness :
    (_export_single_part {} {} {} "out.dxf" "tmp.m3d" [("out.dxf", 700)]).1.success
      = false ∧
    (_export_single_part {} {} {} "out.dxf" "tmp.m3d" [("out.dxf", 700)]).1.error_message
      = "Файл уже существует" ∧
    (_export_single_part {} {} {} "out.dxf" "tmp.m3d" [("out.dxf", 700)]).2.2.openRequested
      = false ∧
    (_export_single_part {} {} {} "out.dxf" "tmp.m3d" [("out.dxf", 700)]).2.1
      = [("out.dxf", 700)] :=
  c4_already_exists {} {} {} "out.dxf" "tmp.m3d" [("out.dxf", 700)] (by decide) rfl

/-! C1: restore of the straightened flag on every exit path. -/

/-- C1: for a part exported with straighten_before_export whose body started
folded and whose export reached the snapshot step, on every exit path
(including a raising mutate/convert section) the guaranteed-execution block
requests fold() whenever the post-conversion state differs from the
snapshot, and whenever that modelled host request succeeds the body's
straightened flag at exit equals its snapshotted value (false). -/
theorem c1_restore_state (settings : ExportSettings) (o : PartOracle)
    (part_info : SheetPartInfo) (output_path temp_file : String) (fs : FS)
    (hst : settings.straighten_before_export = true)
    (hfold : o.body0 = false)
    (hsnap : (_export_single_part settings o part_info output_path temp_file fs).2.2.snapshotTaken
      = true) :
    ((_export_single_part settings o part_info output_path temp_file fs).2.2.finalStraightened
        ≠ false →
      (_export_single_part settings o part_info output_path temp_file fs).2.2.foldRequested
        = true) ∧
    (o.restoreFoldOk = true →
      (_export_single_part settings o part_info output_path temp_file fs).2.2.finalStraightened
        = false) := by
  rcases exportSingle_early_or_core settings o part_info output_path temp_file fs with
    heq | ⟨h1, _⟩
  · rw [heq] at hsnap ⊢
    unfold exportCore at hsnap ⊢
    rcases hmc : mutateConvert settings o
        { part_info := part_info, output_path := output_path } output_path temp_file fs
      with ⟨out, flag1, fs1s, convb⟩
    simp only [hmc, hfold] at hsnap ⊢
    cases flag1 <;> cases out <;> cases hrf : o.restoreFoldOk <;> simp
  · rw [h1] at hsnap
    exact absurd hsnap (by simp)

/-- Witness for C1: a folded body, straighten acts on the host flag but the
call raises; fold() is requested by the finally block and succeeds. -/
theorem c1_restore_state_witness :
    (_export_single_part {}
        { sourceFileExists := true, openOk := true, docType := .part,
          topPartOk := true, containerOk := true, bodiesNonempty := true,
          straightenEffect := true, straightenCall := .error "injected failure",
          restoreFoldOk := true }
        { file_path := "a.m3d" } "out.dxf" "t.m3d" []).2.2.finalStraightened = false :=
  (c1_restore_state {}
    { sourceFileExists := true, openOk := true, docType := .part,
      topPartOk := true, containerOk := true, bodiesNonempty := true,
      straightenEffect := true, straightenCall := .error "injected failure",
      restoreFoldOk := true }
    { file_path := "a.m3d" } "out.dxf" "t.m3d" [] rfl rfl (by decide)).2 rfl

/-! C2: per-part error containment and batch completion. -/

theorem exportLoop_length_nocancel (settings : ExportSettings)
    (genPath : SheetPartInfo → Nat → String) (temp_file : String)
    (oracles : Nat → PartOracle) :
    ∀ (sel : List SheetPartInfo) (idx : Nat) (fs : FS),
      (exportLoop settings genPath temp_file oracles (fun _ => false) sel idx false fs).1.results.length
        = sel.length := by
  intro sel
  induction sel with
  | nil => intro idx fs; rfl
  | cons p ps ih =>
    intro idx fs
    simp only [exportLoop, Bool.false_or]
    simp [ih]

/-- C2 counterexample: the part handler sets error_message = str(e), and
Python's str(e) is empty for exceptions constructed without arguments (e.g.
ValueError()).  Here an exception with empty text is raised during the part's
processing and is caught and converted — but the resulting ExportResult has
error_message = "", refuting the claim's universal non-empty error message. -/
theorem c2_counterexample :
    (_export_single_part {}
        { sourceFileExists := true, openOk := true, docType := .part,
          topPartOk := true, containerOk := true, bodiesNonempty := true,
          straightenEffect := true, straightenCall := .error "" }
        { file_path := "a.m3d" } "out.dxf" "t.m3d" []).2.2.raisedMsg = some "" ∧
    (_export_single_part {}
        { sourceFileExists := true, openOk := true, docType := .part,
          topPartOk := true, containerOk := true, bodiesNonempty := true,
          straightenEffect := true, straightenCall := .error "" }
        { file_path := "a.m3d" } "out.dxf" "t.m3d" []).1.success = false ∧
    (_export_single_part {}
        { sourceFileExists := true, openOk := true, docType := .part,
          topPartOk := true, containerOk := true, bodiesNonempty := true,
          straightenEffect := true, straightenCall := .error "" }
        { file_path := "a.m3d" } "out.dxf" "t.m3d" []).1.error_message = "" :=
  ⟨rfl, rfl, rfl⟩

/-- C2 (amended): every error raised while processing a single part is caught
at that part's handler and converted into that part's result with
success = false and error_message equal to the exception's text — non-empty
exactly when that text is (str(e) can be empty); and with no cancellation the
batch returns one result per selected part, with no exception propagating
(export_parts is total). -/
theorem c2_error_containment (settings : ExportSettings)
    (genPath : SheetPartInfo → Nat → String) (temp_file : String)
    (oracles : Nat → PartOracle) (parts : List SheetPartInfo) (fs : FS)
    (o : PartOracle) (part_info : SheetPartInfo) (output_path : String)
    (fs1 : FS) (m : String) :
    ((_export_single_part settings o part_info output_path temp_file fs1).2.2.raisedMsg
        = some m →
      (_export_single_part settings o part_info output_path temp_file fs1).1.success
        = false ∧
      (_export_single_part settings o part_info output_path temp_file fs1).1.error_message
        = m) ∧
    (export_parts settings genPath temp_file oracles (fun _ => false) parts fs).1.results.length
      = (parts.filter (fun q => q.export_selected)).length := by
  constructor
  · intro hraised
    rcases exportSingle_early_or_core settings o part_info output_path temp_file fs1 with
      heq | ⟨_, h2⟩
    · rw [heq] at hraised ⊢
      unfold exportCore at hraised ⊢
      rcases hmc : mutateConvert settings o
          { part_info := part_info, output_path := output_path } output_path temp_file fs1
        with ⟨out, flag1, fs1s, convb⟩
      simp only [hmc] at hraised ⊢
      cases out with
      | error m2 =>
        simp at hraised
        subst hraised
        exact ⟨rfl, rfl⟩
      | ok r =>
        simp at hraised
    · rw [h2] at hraised
      exact absurd hraised (by simp)
  · unfold export_parts
    exact exportLoop_length_nocancel settings genPath temp_file oracles _ 0 fs

/-- Witness for C2 (amended): a raising straighten stub yields a failed
result carrying the exception message; a two-part batch with one unselected
part completes with exactly one result. -/
theorem c2_error_containment_witness :
    (_export_single_part {}
        { sourceFileExists := true, openOk := true, docType := .part,
          topPartOk := true, containerOk := true, bodiesNonempty := true,
          straightenEffect := true, straightenCall := .error "boom" }
        { file_path := "a.m3d" } "out.dxf" "t.m3d" []).1.success = false ∧
    (_export_single_part {}
        { sourceFileExists := true, openOk := true, docType := .part,
          topPartOk := true, containerOk := true, bodiesNonempty := true,
          straightenEffect := true, straightenCall := .error "boom" }
        { file_path := "a.m3d" } "out.dxf" "t.m3d" []).1.error_message = "boom" ∧
    (export_parts {} (fun _ _ => "out.dxf") "t.m3d" (fun _ => {}) (fun _ => false)
        [{}, { export_selected := false }] []).1.results.length
      = ([{}, { export_selected := false }].filter
          (fun q : SheetPartInfo => q.export_selected)).length := by
  have h := c2_error_containment {} (fun _ _ => "out.dxf") "t.m3d" (fun _ => {})
    [{}, { export_selected := false }] []
    { sourceFileExists := true, openOk := true, docType := .part,
      topPartOk := true, containerOk := true, bodiesNonempty := true,
      straightenEffect := true, straightenCall := .error "boom" }
    { file_path := "a.m3d" } "out.dxf" [] "boom"
  exact ⟨(h.1 rfl).1, (h.1 rfl).2, h.2⟩

/-! C5: cooperative cancellation at part boundaries. -/

theorem exportLoop_cancelled (settings : ExportSettings)
    (genPath : SheetPartInfo → Nat → String) (temp_file : String)
    (oracles : Nat → PartOracle) (cancelDuring : Nat → Bool)
    (sel : List SheetPartInfo) (idx : Nat) (fs : FS) :
    exportLoop settings genPath temp_file oracles cancelDuring sel idx true fs
      = ({}, fs, []) := by
  cases sel <;> rfl

theorem exportLoop_cancel_length (settings : ExportSettings)
    (genPath : SheetPartInfo → Nat → String) (temp_file : String)
    (oracles : Nat → PartOracle) (cancelDuring : Nat → Bool) :
    ∀ (sel : List SheetPartInfo) (j idx : Nat) (fs : FS),
      cancelDuring (idx + j) = true →
      (∀ i, i < j → cancelDuring (idx + i) = false) →
      j < sel.length →
      (exportLoop settings genPath temp_file oracles cancelDuring sel idx false fs).1.results.length
        = j + 1 := by
  intro sel
  induction sel with
  | nil =>
    intro j idx fs _ _ hlen
    simp at hlen
  | cons p ps ih =>
    intro j idx fs hj hbefore hlen
    cases j with
    | zero =>
      have h0 : cancelDuring idx = true := by simpa using hj
      simp only [exportLoop, Bool.false_or, h0]
      rw [exportLoop_cancelled]
      simp
    | succ j2 =>
      have h0 : cancelDuring idx = false := by
        have := hbefore 0 (Nat.succ_pos j2)
        simpa using this
      have hj2 : cancelDuring ((idx + 1) + j2) = true := by
        rw [show (idx + 1) + j2 = idx + (j2 + 1) from by omega]
        exact hj
      have hbefore2 : ∀ i, i < j2 → cancelDuring ((idx + 1) + i) = false := by
        intro i hi
        rw [show (idx + 1) + i = idx + (i + 1) from by omega]
        exact hbefore (i + 1) (by omega)
      have hlen2 : j2 < ps.length := by simpa using Nat.lt_of_succ_lt_succ hlen
      have hrec := ih j2 (idx + 1)
        ((_export_single_part settings (oracles idx) p (genPath p idx) temp_file fs).2.1)
        hj2 hbefore2 hlen2
      simp only [exportLoop, Bool.false_or, h0]
      simp [hrec]

/-- C5: if cancellation is requested while item j (0-based; item k = j + 1 in
1-based counting) of the selected list is being processed and was not
requested earlier, the summary holds exactly j + 1 results: the in-flight
part's result is still appended, no later part is processed, because the
flag is polled only between parts. -/
theorem c5_cancellation (settings : ExportSettings)
    (genPath : SheetPartInfo → Nat → String) (temp_file : String)
    (oracles : Nat → PartOracle) (cancelDuring : Nat → Bool)
    (parts : List SheetPartInfo) (fs : FS) (j : Nat)
    (hj : cancelDuring j = true)
    (hbefore : ∀ i, i < j → cancelDuring i = false)
    (hlen : j < (parts.filter (fun q => q.export_selected)).length) :
    (export_parts settings genPath temp_file oracles cancelDuring parts fs).1.results.length
      = j + 1 := by
  unfold export_parts
  exact exportLoop_cancel_length settings genPath temp_file oracles cancelDuring
    (parts.filter (fun q => q.export_selected)) j 0 fs
    (by simpa using hj) (fun i hi => by simpa using hbefore i hi) hlen

/-- Witness for C5: three selected parts, cancellation requested during item
index 1 — exactly 2 of 3 results. -/
theorem c5_cancellation_witness :
    (export_parts {} (fun _ _ => "out.dxf") "t.m3d" (fun _ => {})
        (fun i => decide (i = 1)) [{}, {}, {}] []).1.results.length = 2 :=
  c5_cancellation {} (fun _ _ => "out.dxf") "t.m3d" (fun _ => {})
    (fun i => decide (i = 1)) [{}, {}, {}] [] 1 (by decide)
    (fun i hi => by
      cases i with
      | zero => rfl
      | succ n => omega)
    (by decide)

/-! C6: unselected parts never appear in the summary. -/

theorem exportLoop_all_selected (settings : ExportSettings)
    (genPath : SheetPartInfo → Nat → String) (temp_file : String)
    (oracles : Nat → PartOracle) (cancelDuring : Nat → Bool) :
    ∀ (sel : List SheetPartInfo) (idx : Nat) (cancelled : Bool) (fs : FS),
      (∀ p ∈ sel, p.export_selected = true) →
      ∀ r ∈ (exportLoop settings genPath temp_file oracles cancelDuring sel idx cancelled fs).1.results,
        r.part_info.export_selected = true := by
  intro sel
  induction sel with
  | nil =>
    intro idx cancelled fs _ r hr
    simp [exportLoop] at hr
  | cons p ps ih =>
    intro idx cancelled fs hsel r hr
    cases cancelled with
    | true =>
      rw [exportLoop_cancelled] at hr
      simp at hr
    | false =>
      simp only [exportLoop, Bool.false_or] at hr
      rcases List.mem_cons.mp hr with h | h
      · subst h
        exact hsel p (List.mem_cons_self p ps)
      · exact ih (idx + 1) (cancelDuring idx) _
          (fun q hq => hsel q (List.mem_cons_of_mem p hq)) r h

/-- C6: every result in the summary references a part with
export_selected = true; parts with export_selected = false are filtered out
before the loop and never processed. -/
theorem c6_unselected_absent (settings : ExportSettings)
    (genPath : SheetPartInfo → Nat → String) (temp_file : String)
    (oracles : Nat → PartOracle) (cancelDuring : Nat → Bool)
    (parts : List SheetPartInfo) (fs : FS) (r : ExportResult)
    (hr : r ∈ (export_parts settings genPath temp_file oracles cancelDuring parts fs).1.results) :
    r.part_info.export_selected = true := by
  unfold export_parts at hr
  exact exportLoop_all_selected settings genPath temp_file oracles cancelDuring
    (parts.filter (fun q => q.export_selected)) 0 false fs
    (fun q hq => (List.mem_filter.mp hq).2) r hr

/-- Witness for C6 at a concrete one-part batch. -/
theorem c6_unselected_absent_witness :
    (((export_parts {} (fun _ _ => "out.dxf") "t.m3d" (fun _ => {}) (fun _ => false)
        [{}] []).1.results).get ⟨0, by decide⟩).part_info.export_selected = true :=
  c6_unselected_absent {} (fun _ _ => "out.dxf") "t.m3d" (fun _ => {}) (fun _ => false)
    [{}] [] _ (List.get_mem _ _ _)

/-! C3: the conversion fallback chain and its content sanity check. -/

theorem converter_success_sound (o : ConvOracle) (output_path temp_file : String)
    (fs : FS) (hne : temp_file ≠ output_path)
    (h : (_export_via_converter o output_path temp_file fs).1 = true) :
    ∃ n, fsLookup (_export_via_converter o output_path temp_file fs).2 output_path
        = some n ∧ 500 < n := by
  unfold _export_via_converter at h ⊢
  repeat' split at h
  all_goals simp_all
  all_goals repeat' split at h
  all_goals simp_all
  all_goals
    (rename_i n hlk
     exact ⟨n, by rw [fsLookup_fsErase_ne _ _ _ hne]; exact hlk, h⟩)

theorem drawing_view_success_sound (o : ConvOracle) (output_path temp_file : String)
    (fs : FS) (hne : temp_file ≠ output_path)
    (h : (_export_via_drawing_view o output_path temp_file fs).1 = true) :
    ∃ n, fsLookup (_export_via_drawing_view o output_path temp_file fs).2 output_path
        = some n ∧ 500 < n := by
  unfold _export_via_drawing_view at h ⊢
  repeat' split at h
  all_goals simp_all
  all_goals repeat' split at h
  all_goals simp_all
  all_goals
    (rename_i n hlk
     exact ⟨n, by rw [fsLookup_fsErase_ne _ _ _ hne]; exact hlk, h⟩)

theorem fragment_success_sound (o : ConvOracle) (output_path : String)
    (fs : FS)
    (h : (_export_via_2d_fragment o output_path fs).1 = true) :
    ∃ n, fsLookup (_export_via_2d_fragment o output_path fs).2 output_path
        = some n ∧ 500 < n := by
  unfold _export_via_2d_fragment at h ⊢
  repeat' split at h
  all_goals simp_all
  all_goals repeat' split at h
  all_goals simp_all

/-- C3 counterexample: for a 2D document the chain is the direct save and
reports the host's return code with no content sanity check — here the host
reports success while producing no file at all, and the chain still reports
success.  This refutes the claim that every success the chain reports is
confirmed by the exists-and-larger-than-threshold check. -/
theorem c3_counterexample :
    (_export_to_dxf true { saveAs2dOk := true } "out.dxf" "tmp.m3d" []).1 = true ∧
    fsLookup (_export_to_dxf true { saveAs2dOk := true } "out.dxf" "tmp.m3d" []).2.1
      "out.dxf" = none :=
  ⟨rfl, rfl⟩

/-- C3 (amended): for 3D documents the chain stops at the first strategy
reporting success and every success it reports is confirmed by the content
sanity check (output exists with size > 500 bytes); a strategy that fails —
including by failing the check — is followed by the next one.  The 2D
direct-save path returns the host's save result unchecked. -/
theorem c3_fallback_chain (o : ConvOracle) (output_path temp_file : String)
    (fs : FS) (hne : temp_file ≠ output_path) :
    ((_export_to_dxf false o output_path temp_file fs).1 = true →
      ∃ n, fsLookup (_export_to_dxf false o output_path temp_file fs).2.1 output_path
          = some n ∧ 500 < n) ∧
    ((_export_via_converter o output_path temp_file fs).1 = true →
      (_export_to_dxf false o output_path temp_file fs).2.2 = { tried2 := true }) ∧
    ((_export_via_converter o output_path temp_file fs).1 = false →
      (_export_to_dxf false o output_path temp_file fs).2.2.tried3 = true) ∧
    ((_export_via_converter o output_path temp_file fs).1 = false →
      (_export_via_drawing_view o output_path temp_file
          (_export_via_converter o output_path temp_file fs).2).1 = true →
      (_export_to_dxf false o output_path temp_file fs).2.2
        = { tried2 := true, tried3 := true }) ∧
    ((_export_via_converter o output_path temp_file fs).1 = false →
      (_export_via_drawing_view o output_path temp_file
          (_export_via_converter o output_path temp_file fs).2).1 = false →
      (_export_to_dxf false o output_path temp_file fs).2.2
        = { tried2 := true, tried3 := true, tried4 := true }) := by
  refine ⟨?_, ?_, ?_, ?_, ?_⟩
  · intro h
    unfold _export_to_dxf at h ⊢
    rcases hm2 : (_export_via_converter o output_path temp_file fs).1 with _ | _
    · rcases hm3 : (_export_via_drawing_view o output_path temp_file
          (_export_via_converter o output_path temp_file fs).2).1 with _ | _
      · simp only [hm2, hm3, Bool.false_eq_true, if_false] at h ⊢
        exact fragment_success_sound o output_path _ h
      · simp only [hm2, hm3, Bool.false_eq_true, if_false, if_true] at h ⊢
        exact drawing_view_success_sound o output_path temp_file _ hne hm3
    · simp only [hm2, if_true] at h ⊢
      exact converter_success_sound o output_path temp_file fs hne hm2
  · intro h
    unfold _export_to_dxf
    simp [h]
  · intro h
    unfold _export_to_dxf
    simp only [h, Bool.false_eq_true, if_false]
    split <;> rfl
  · intro h2 h3
    unfold _export_to_dxf
    simp [h2, h3]
  · intro h2 h3
    unfold _export_to_dxf
    simp [h2, h3]

/-- Witness for C3 (amended): the converter strategy succeeds with a
900-byte output, the chain reports success, the file passes the check, and
later strategies are not tried. -/
theorem c3_fallback_chain_witness :
    ((_export_to_dxf false
        { converterAvailable := true, saveTempOk2 := true,
          convertReturns := .ok true, convertWrites := some 900 }
        "out.dxf" "tmp.m3d" []).1 = true →
      ∃ n, fsLookup (_export_to_dxf false
          { converterAvailable := true, saveTempOk2 := true,
            convertReturns := .ok true, convertWrites := some 900 }
          "out.dxf" "tmp.m3d" []).2.1 "out.dxf" = some n ∧ 500 < n) ∧
    (_export_to_dxf false
        { converterAvailable := true, saveTempOk2 := true,
          convertReturns := .ok true, convertWrites := some 900 }
        "out.dxf" "tmp.m3d" []).2.2 = { tried2 := true } :=
  ⟨(c3_fallback_chain
      { converterAvailable := true, saveTempOk2 := true,
        convertReturns := .ok true, convertWrites := some 900 }
      "out.dxf" "tmp.m3d" [] (by decide)).1,
   (c3_fallback_chain
      { converterAvailable := true, saveTempOk2 := true,
        convertReturns := .ok true, convertWrites := some 900 }
      "out.dxf" "tmp.m3d" [] (by decide)).2.1 (by decide)⟩

/-! C7: get_all_sheet_parts versus the pre-order flatten. -/

mutual

theorem get_all_eq_filterMap : ∀ t : AssemblyNode,
    t.get_all_sheet_parts = t.flatten.filterMap pickSheet
  | .mk d cs => by
    simp only [AssemblyNode.get_all_sheet_parts, AssemblyNode.flatten,
      List.filterMap_cons, get_all_eq_filterMap_list cs]
    cases hsm : d.is_sheet_metal <;> rcases hsp : d.sheet_part with _ | sp <;>
      simp [pickSheet, AssemblyNode.data, hsm, hsp]

theorem get_all_eq_filterMap_list : ∀ ts : List AssemblyNode,
    getAllSheetPartsList ts = (flattenList ts).filterMap pickSheet
  | [] => rfl
  | c :: cs => by
    simp only [getAllSheetPartsList, flattenList, List.filterMap_append,
      get_all_eq_filterMap c, get_all_eq_filterMap_list cs]

end

/-- C7 counterexample: a scan of a part whose container reports sheet metal
but whose body list comes back empty (the per-index body retrieval of
SheetMetalContainer.sheet_metal_bodies can fail even when has_sheet_metal is
true) produces a node flagged is_sheet_metal with no embedded record, and
get_all_sheet_parts omits it — so a node can be flagged sheet-metal yet
absent from the output, refuting the claimed if-and-only-if. -/
theorem c7_counterexample :
    ((_scan_part_recursive (fun _ => "n0") (fun s => s)
        (.mk { containerFound := true, has_sheet_metal := true } []) 0 0 "").1).data.is_sheet_metal
      = true ∧
    ((_scan_part_recursive (fun _ => "n0") (fun s => s)
        (.mk { containerFound := true, has_sheet_metal := true } []) 0 0 "").1).get_all_sheet_parts
      = [] :=
  ⟨rfl, rfl⟩

/-- C7 (amended): on every scan-produced tree, get_all_sheet_parts returns,
in pre-order (encounter order of the depth-first flatten), exactly the
embedded SheetPartInfo records of the nodes that are flagged sheet-metal and
carry one (a flagged node carries none only when its body list was empty at
scan time). -/
theorem c7_preorder_sheet_parts (idSupply : Nat → String) (stem : String → String)
    (p : HostPart) (counter level : Nat) (parent_id : String) :
    ((_scan_part_recursive idSupply stem p counter level parent_id).1).get_all_sheet_parts
      = ((_scan_part_recursive idSupply stem p counter level parent_id).1).flatten.filterMap
          pickSheet :=
  get_all_eq_filterMap _

/-! C9: identifier uniqueness and the level invariant of scanned trees. -/

theorem nodeIds_reparent (d : NodeData) (n : AssemblyNode) :
    nodeIds (reparent d n) = nodeIds n := by
  obtain ⟨cd, ccs⟩ := n
  rfl

theorem nodeIdsList_map_reparent (d : NodeData) :
    ∀ l : List AssemblyNode, nodeIdsList (l.map (reparent d)) = nodeIdsList l
  | [] => rfl
  | c :: cs => by
    simp only [List.map_cons, nodeIdsList, nodeIds_reparent,
      nodeIdsList_map_reparent d cs]

theorem addChildren_eq (cs : List AssemblyNode) :
    ∀ (cs0 : List AssemblyNode) (d : NodeData),
      addChildren (.mk d cs0) cs = .mk d (cs0 ++ cs.map (reparent d)) := by
  induction cs with
  | nil => intro cs0 d; simp [addChildren]
  | cons c cs ih =>
    intro cs0 d
    obtain ⟨cd, ccs⟩ := c
    simp only [addChildren, List.foldl_cons, AssemblyNode.add_child] at *
    rw [ih]
    simp [reparent]

theorem reparent_noop (d : NodeData) (n : AssemblyNode)
    (h1 : n.data.parent_id = d.id) (h2 : n.data.level = d.level + 1) :
    reparent d n = n := by
  obtain ⟨cd, ccs⟩ := n
  simp only [AssemblyNode.data] at h1 h2
  rw [reparent, ← h1, ← h2]

theorem scan_data (idSupply : Nat → String) (stem : String → String)
    (p : HostPart) (c lvl : Nat) (pid : String) :
    ((_scan_part_recursive idSupply stem p c lvl pid).1).data.id = idSupply c ∧
    ((_scan_part_recursive idSupply stem p c lvl pid).1).data.level = lvl ∧
    ((_scan_part_recursive idSupply stem p c lvl pid).1).data.parent_id = pid := by
  obtain ⟨d, children⟩ := p
  simp [_scan_part_recursive, addChildren_eq, AssemblyNode.data]

theorem map_reparent_scanned (idSupply : Nat → String) (stem : String → String)
    (d : NodeData) :
    ∀ (ps : List HostPart) (c lvl : Nat) (pid : String),
      d.id = pid → d.level + 1 = lvl →
      ((_scan_children idSupply stem ps c lvl pid).1).map (reparent d)
        = (_scan_children idSupply stem ps c lvl pid).1
  | [], _, _, _, _, _ => rfl
  | p :: ps, c, lvl, pid, hid, hlvl => by
    simp only [_scan_children, List.map_cons]
    rw [reparent_noop d _ (by rw [(scan_data idSupply stem p c lvl pid).2.2, hid])
        (by rw [(scan_data idSupply stem p c lvl pid).2.1, hlvl]),
      map_reparent_scanned idSupply stem d ps _ lvl pid hid hlvl]

mutual

theorem scan_ids (idSupply : Nat → String) (stem : String → String) :
    ∀ (p : HostPart) (c lvl : Nat) (pid : String),
      nodeIds (_scan_part_recursive idSupply stem p c lvl pid).1
          = (List.range' c (_count_parts p)).map idSupply ∧
      (_scan_part_recursive idSupply stem p c lvl pid).2 = c + _count_parts p
  | .mk d children, c, lvl, pid => by
    have hl := scan_ids_list idSupply stem children (c + 1) (lvl + 1) (idSupply c)
    simp only [_scan_part_recursive, addChildren_eq, _count_parts, nodeIds,
      List.nil_append, nodeIdsList_map_reparent, hl.1, hl.2]
    constructor
    · rw [Nat.add_comm 1 (_count_parts_list children), List.range'_succ]
      simp
    · omega

theorem scan_ids_list (idSupply : Nat → String) (stem : String → String) :
    ∀ (ps : List HostPart) (c lvl : Nat) (pid : String),
      nodeIdsList (_scan_children idSupply stem ps c lvl pid).1
          = (List.range' c (_count_parts_list ps)).map idSupply ∧
      (_scan_children idSupply stem ps c lvl pid).2 = c + _count_parts_list ps
  | [], c, lvl, pid => by simp [_scan_children, _count_parts_list, nodeIdsList, List.range']
  | p :: ps, c, lvl, pid => by
    have h1 := scan_ids idSupply stem p c lvl pid
    have h2 := scan_ids_list idSupply stem ps
      (_scan_part_recursive idSupply stem p c lvl pid).2 lvl pid
    rw [h1.2] at h2
    simp only [_scan_children, nodeIdsList, _count_parts_list, h1.1, h1.2, h2.1, h2.2]
    constructor
    · rw [← List.map_append, List.range'_append_1, Nat.add_comm (_count_parts_list ps)]
    · omega

end

mutual

theorem scan_levels (idSupply : Nat → String) (stem : String → String) :
    ∀ (p : HostPart) (c lvl : Nat) (pid : String),
      levelsOk (_scan_part_recursive idSupply stem p c lvl pid).1 = true
  | .mk d children, c, lvl, pid => by
    simp only [_scan_part_recursive, addChildren_eq, levelsOk, List.nil_append]
    rw [map_reparent_scanned idSupply stem _ children (c + 1) (lvl + 1) (idSupply c)
        rfl rfl]
    exact scan_levels_list idSupply stem children (c + 1) (lvl + 1) (idSupply c)

theorem scan_levels_list (idSupply : Nat → String) (stem : String → String) :
    ∀ (ps : List HostPart) (c lvl : Nat) (pid : String),
      levelsOkList lvl (_scan_children idSupply stem ps c lvl pid).1 = true
  | [], _, _, _ => rfl
  | p :: ps, c, lvl, pid => by
    simp only [_scan_children, levelsOkList]
    rw [(scan_data idSupply stem p c lvl pid).2.1]
    simp [scan_levels idSupply stem p c lvl pid,
      scan_levels_list idSupply stem ps (_scan_part_recursive idSupply stem p c lvl pid).2 lvl pid]

end

/-- C9 counterexample: the scanner draws each node id from the external
generator str(uuid.uuid4())[:8] with no uniqueness check; a generator that
repeats a truncated value yields a scanned tree with duplicate identifiers,
so uniqueness is not an invariant the code establishes. -/
theorem c9_counterexample :
    ¬ (nodeIds (_scan_part_recursive (fun _ => "1a2b3c4d") (fun s => s)
        (.mk {} [.mk {} []]) 0 0 "").1).Nodup := by
  decide

/-- C9 (amended): a scanned tree's identifiers are pairwise distinct
provided the id generator never repeats a value (not enforced by the code,
which truncates random UUIDs to 8 characters); the level invariant — every
child's level is its parent's level + 1 — holds unconditionally. -/
theorem c9_scan_invariants (idSupply : Nat → String) (stem : String → String)
    (p : HostPart) (c lvl : Nat) (pid : String) :
    (Function.Injective idSupply →
      (nodeIds (_scan_part_recursive idSupply stem p c lvl pid).1).Nodup) ∧
    levelsOk (_scan_part_recursive idSupply stem p c lvl pid).1 = true := by
  constructor
  · intro hinj
    rw [(scan_ids idSupply stem p c lvl pid).1]
    exact List.Nodup.map hinj (List.nodup_range' c (_count_parts p))
  · exact scan_levels idSupply stem p c lvl pid

/-- Witness for C9 (amended) with an injective id supply. -/
theorem c9_scan_invariants_witness :
    (nodeIds (_scan_part_recursive (fun n => String.mk (List.replicate n 'a'))
        (fun s => s) (.mk {} [.mk {} []]) 0 0 "").1).Nodup ∧
    levelsOk (_scan_part_recursive (fun n => String.mk (List.replicate n 'a'))
        (fun s => s) (.mk {} [.mk {} []]) 0 0 "").1 = true :=
  ⟨(c9_scan_invariants (fun n => String.mk (List.replicate n 'a'))
      (fun s => s) (.mk {} [.mk {} []]) 0 0 "").1
    (fun a b h => by
      have := congrArg (fun s : String => s.data.length) h
      simpa using this),
   (c9_scan_invariants (fun n => String.mk (List.replicate n 'a'))
      (fun s => s) (.mk {} [.mk {} []]) 0 0 "").2⟩

end RoboComp
